import Mathlib

/-!
Formal model of the Trust Fingerprint subsystem (scripts/exchange-hash.mjs)
and the Trust Evaluation Engine (references/patterns.md, Decision Template)
of the intuition-openclaw-skill repository.

Conventions of the embedding:
* A JavaScript Date is modelled by the three observations the scripts use of
  it: its numeric value in milliseconds (valueOf, used by subtraction and by
  the sort comparator), the local hour of day (getHours), and the ISO string
  (toISOString).
* JavaScript numbers are modelled as exact rationals; Math.round is the
  floor of x + 1/2, which agrees with Math.round on all inputs the scripts
  produce.
* Array.prototype.sort with the comparator (a, b) => a.time - b.time is a
  stable sort by the time value; it is modelled by insertion sort by that
  key, which is stable in the same way.
* The sha256 hex digest is an external library call; it enters the model as
  an explicit function parameter h : String -> String, and the chained
  update calls hash the concatenation of their arguments.
-/

/-- The observations exchange-hash.mjs makes of a parsed Date value. -/
structure JsDate where
  timeMs : ℤ
  hour : ℕ
  isoString : String
deriving DecidableEq, Repr

/-- A parsed message record, from parseMessage in exchange-hash.mjs:
field for field the object `\x7b from, to, time, length \x7d` (the filepath
field is dropped: no analysed quantity reads it). -/
structure Msg where
  «from» : String
  «to» : Option String
  time : JsDate
  length : ℕ
deriving DecidableEq, Repr

/-- Comparator order used by `messages.sort((a, b) => a.time - b.time)`. -/
def msgLE (a b : Msg) : Prop := a.time.timeMs ≤ b.time.timeMs

instance : DecidableRel msgLE := fun a b => Int.decLe _ _

instance : IsTotal Msg msgLE := ⟨fun a b => Int.le_total _ _⟩

instance : IsTrans Msg msgLE := ⟨fun _ _ _ h1 h2 => le_trans h1 h2⟩

/-- Strict version of `msgLE`, used to reason about inputs whose
timestamps are pairwise distinct. -/
def msgLT (a b : Msg) : Prop := a.time.timeMs < b.time.timeMs

instance : IsAntisymm Msg msgLT :=
  ⟨fun _ _ h1 h2 => absurd (lt_trans h1 h2) (lt_irrefl _)⟩

/-- The in-place `messages.sort((a, b) => a.time - b.time)` of
exchange-hash.mjs line 84, modelled as a stable sort by timestamp. -/
def sortByTime (l : List Msg) : List Msg := List.insertionSort msgLE l

/-- JavaScript Math.round: round half up. -/
def jsRound (q : ℚ) : ℤ := ⌊q + 1/2⌋

/-- `(curr.time - prev.time) / (1000 * 60)`: interval between two messages
in minutes (exchange-hash.mjs lines 93 and 94). -/
def diffMins (prev curr : Msg) : ℚ :=
  ((curr.time.timeMs - prev.time.timeMs : ℤ) : ℚ) / (1000 * 60)

/-- The adjacent pairs (sorted[i-1], sorted[i]) visited by the loop
`for (let i = 1; i < sorted.length; i++)`. -/
def msgPairs (l : List Msg) : List (Msg × Msg) := l.zip l.tail

/-- `if (curr.from !== prev.from) latencies.push(diffMins)`
(exchange-hash.mjs line 96). -/
def latenciesOf (sorted : List Msg) : List ℚ :=
  (msgPairs sorted).filterMap fun p =>
    if p.2.«from» ≠ p.1.«from» then some (diffMins p.1 p.2) else none

/-- A gap record `\x7b duration, survived \x7d` as pushed at
exchange-hash.mjs line 97. -/
structure Gap where
  duration : ℚ
  survived : Bool
deriving DecidableEq, Repr

/-- `if (diffMins > 120) gaps.push(\x7b duration: diffMins, survived: true \x7d)`
(exchange-hash.mjs line 97). -/
def gapsOf (sorted : List Msg) : List Gap :=
  (msgPairs sorted).filterMap fun p =>
    if 120 < diffMins p.1 p.2 then some ⟨diffMins p.1 p.2, true⟩ else none

/-- `latencies.reduce((a, b) => a + b, 0) / latencies.length`, guarded by
`latencies.length > 0 ? ... : 0` (exchange-hash.mjs lines 100 and 101). -/
def avgLatencyRaw (sorted : List Msg) : ℚ :=
  let latencies := latenciesOf sorted
  if 0 < latencies.length then latencies.sum / (latencies.length : ℚ) else 0

/-- `gaps.length > 0 ? gaps.filter(g => g.survived).length / gaps.length : 1.0`
(exchange-hash.mjs lines 102 and 103). -/
def gapSurvivalRaw (sorted : List Msg) : ℚ :=
  let gaps := gapsOf sorted
  if 0 < gaps.length then
    (((gaps.filter fun g => g.survived).length : ℚ) / (gaps.length : ℚ))
  else 1

/-- Population variance as written twice in exchange-hash.mjs
(lines 104 to 107): mean of squared deviations from the mean. -/
def popVariance (xs : List ℚ) : ℚ :=
  let avg := xs.sum / (xs.length : ℚ)
  ((xs.map fun x => (x - avg) ^ 2).sum) / (xs.length : ℚ)

/-- Variance of the body lengths of the sorted messages. -/
def lengthVarianceRaw (sorted : List Msg) : ℚ :=
  popVariance (sorted.map fun m => (m.length : ℚ))

/-- Variance of the hour-of-day values of the sorted messages. -/
def hourVarianceRaw (sorted : List Msg) : ℚ :=
  popVariance (sorted.map fun m => (m.time.hour : ℚ))

/-- `Math.max(0, 1 - (hourVariance / 144))` (exchange-hash.mjs line 108). -/
def temporalConsistencyRaw (sorted : List Msg) : ℚ :=
  max 0 (1 - hourVarianceRaw sorted / 144)

/-- The object returned by computeRhythm. The early-return branch of the
source (messages.length < 2) has no gapsCount property, hence the Option. -/
structure RhythmMetrics where
  responseLatencies : List ℚ
  avgLatency : ℚ
  gapSurvival : ℚ
  lengthVariance : ℚ
  temporalConsistency : ℚ
  messageCount : ℕ
  gapsCount : Option ℕ
deriving DecidableEq, Repr

/-- computeRhythm of exchange-hash.mjs (lines 76 to 119). The returned
value of the call; the in-place reordering the call performs on its
argument is modelled separately by `computeRhythmPost`. -/
def computeRhythm (messages : List Msg) : RhythmMetrics :=
  if messages.length < 2 then
    { responseLatencies := []
      avgLatency := 0
      gapSurvival := 0
      lengthVariance := 0
      temporalConsistency := 0
      messageCount := messages.length
      gapsCount := none }
  else
    let sorted := sortByTime messages
    { responseLatencies := latenciesOf sorted
      avgLatency := (jsRound (avgLatencyRaw sorted * 10) : ℚ) / 10
      gapSurvival := (jsRound (gapSurvivalRaw sorted * 100) : ℚ) / 100
      lengthVariance := (jsRound (lengthVarianceRaw sorted) : ℚ)
      temporalConsistency := (jsRound (temporalConsistencyRaw sorted * 100) : ℚ) / 100
      messageCount := messages.length
      gapsCount := some (gapsOf sorted).length }

/-- The state of the caller array after a computeRhythm call.
Array.prototype.sort reorders the array in place and the early return for
fewer than 2 messages happens before the sort runs, so short inputs are
untouched and all others are left in sorted order. -/
def computeRhythmPost (messages : List Msg) : List Msg :=
  if messages.length < 2 then messages else sortByTime messages

/-- `[agent1, agent2].sort()` (exchange-hash.mjs line 122): the default
Array sort compares the strings, so a two-element array becomes the
lexicographically ordered pair. -/
def sortedAgents (agent1 agent2 : String) : List String :=
  if agent1 ≤ agent2 then [agent1, agent2] else [agent2, agent1]

/-- The object returned by createExchangeHash (exchange-hash.mjs
lines 143 to 150). -/
structure ExchangeReport where
  exchangeHash : String
  commitment : String
  rhythmSignature : String
  agents : List String
  began : String
  lastActivity : String
deriving DecidableEq, Repr

/-- The JSON.stringify serialization hashed at exchange-hash.mjs
lines 129 to 134: the four rhythm fields, in source order.  Numbers are
rendered by the ToString instance of the rationals; the exact digits do
not matter to any property below, only that the string is a function of
exactly these four fields. -/
def rhythmSigPayload (rhythm : RhythmMetrics) : String :=
  "\x7b\"avgLatency\":" ++ toString rhythm.avgLatency ++
    ",\"gapSurvival\":" ++ toString rhythm.gapSurvival ++
    ",\"lengthVariance\":" ++ toString rhythm.lengthVariance ++
    ",\"temporalConsistency\":" ++ toString rhythm.temporalConsistency ++ "\x7d"

/-- createExchangeHash of exchange-hash.mjs (lines 121 to 151).  The
sha256 hex digest is the abstract parameter h; chained update calls feed
the hash the concatenation of their arguments, and slice(0, 16) is
String.take 16. -/
def createExchangeHash (h : String → String) (agent1 agent2 : String)
    (rhythm : RhythmMetrics) (firstMsg lastMsg : Msg) : ExchangeReport :=
  let sorted := sortedAgents agent1 agent2
  let commitment :=
    (h (String.intercalate ":" sorted ++ firstMsg.time.isoString)).take 16
  let rhythmSig := (h (rhythmSigPayload rhythm)).take 16
  let exchangeHash := h (commitment ++ rhythmSig ++ lastMsg.time.isoString)
  { exchangeHash := "0x" ++ exchangeHash
    commitment := "0x" ++ commitment
    rhythmSignature := "0x" ++ rhythmSig
    agents := sorted
    began := firstMsg.time.isoString
    lastActivity := lastMsg.time.isoString }

/-- The tail of main (exchange-hash.mjs lines 178 to 185) once the
message records for the pair are in hand: report nothing when no message
survived filtering (the script prints "No messages found" and exits),
otherwise sort, analyse, and hash with sorted[0] and
sorted[sorted.length - 1].  A sorted list is empty exactly when the
input is, so the match below is the messages.length === 0 guard. -/
def runExchange (h : String → String) (agent1 agent2 : String)
    (messages : List Msg) : Option ExchangeReport :=
  match hs : sortByTime messages with
  | [] => none
  | m :: rest =>
      some (createExchangeHash h agent1 agent2 (computeRhythm (m :: rest)) m
        ((m :: rest).getLast (List.cons_ne_nil m rest)))

/-- True when the run produced a report whose three hash strings are all
non-empty. -/
def hashesNonEmpty : Option ExchangeReport → Bool
  | none => false
  | some r =>
      (r.commitment ≠ "" : Bool) && (r.rhythmSignature ≠ "" : Bool) &&
        (r.exchangeHash ≠ "" : Bool)

/-- The inputs of the Decision Template evaluateTrust
(references/patterns.md lines 69 to 92).  The async reads of the chain
(calculateAtomId, isTermCreated, getVault) are abstracted into one input
record: identityExists and claimExists are the two isTermCreated answers,
forStake and againstStake are the vault assets already divided by 1e18
(the forAmount and againstAmount of lines 82 and 83). -/
structure TrustSignal where
  identityExists : Bool
  claimExists : Bool
  forStake : ℚ
  againstStake : ℚ
deriving DecidableEq, Repr

/-- The threshold parameter of evaluateTrust, default
`\x7b stake: 1.0, sentiment: 0.8 \x7d`. -/
structure Threshold where
  stake : ℚ
  sentiment : ℚ
deriving DecidableEq, Repr

/-- The object evaluateTrust returns.  The two early returns carry only
trusted and reason; the final return carries no reason.  Every field a
branch leaves absent is modelled as none. -/
structure TrustVerdict where
  trusted : Bool
  reason : Option String
  stake : Option ℚ
  sentiment : Option ℚ
  contested : Option Bool
deriving DecidableEq, Repr

/-- evaluateTrust of references/patterns.md (lines 69 to 92).  The
sentiment denominator is `forAmount + againstAmount || 1`: the JavaScript
or-expression replaces the sum by 1 exactly when the sum is 0. -/
def evaluateTrust (signal : TrustSignal) (threshold : Threshold) : TrustVerdict :=
  if !signal.identityExists then
    { trusted := false, reason := some "no on-chain identity"
      stake := none, sentiment := none, contested := none }
  else if !signal.claimExists then
    { trusted := false, reason := some "no identity claim"
      stake := none, sentiment := none, contested := none }
  else
    let forAmount := signal.forStake
    let againstAmount := signal.againstStake
    let denom := if forAmount + againstAmount = 0 then 1 else forAmount + againstAmount
    let sentiment := forAmount / denom
    { trusted := (threshold.stake ≤ forAmount : Bool) && (threshold.sentiment ≤ sentiment : Bool)
      reason := none
      stake := some forAmount
      sentiment := some sentiment
      contested := some (0 < againstAmount : Bool) }

/-- Concrete record: from axiom at epoch 0. -/
def msgAxiom0 : Msg := ⟨"axiom", some "veritas", ⟨0, 0, "TA"⟩, 0⟩

/-- Concrete record: from veritas, same timestamp as msgAxiom0. -/
def msgVeritas0 : Msg := ⟨"veritas", some "axiom", ⟨0, 0, "TB"⟩, 0⟩

/-- Concrete record: from axiom, 60 minutes after epoch 0. -/
def msgAxiom60 : Msg := ⟨"axiom", some "veritas", ⟨3600000, 1, "TC"⟩, 0⟩

/-- Concrete record: from veritas, 90 minutes after epoch 0. -/
def msgVeritas90 : Msg := ⟨"veritas", some "axiom", ⟨5400000, 1, "TD"⟩, 0⟩

theorem sortedAgents_comm (a b : String) : sortedAgents a b = sortedAgents b a := by
  unfold sortedAgents
  by_cases hab : a ≤ b
  · by_cases hba : b ≤ a
    · have hh := le_antisymm hab hba
      subst hh
      rfl
    · simp [hab, hba]
  · have hba : b ≤ a := (le_total a b).resolve_left hab
    simp [hab, hba]

theorem sortByTime_perm (l : List Msg) : (sortByTime l).Perm l :=
  List.perm_insertionSort msgLE l

theorem sortByTime_sorted (l : List Msg) : List.Sorted msgLE (sortByTime l) :=
  List.sorted_insertionSort msgLE l

theorem gapsOf_survived (sorted : List Msg) : ∀ g ∈ gapsOf sorted, g.survived = true := by
  intro g hg
  rcases List.mem_filterMap.mp hg with ⟨p, _, hp⟩
  by_cases hc : 120 < diffMins p.1 p.2
  · rw [if_pos hc] at hp
    cases hp
    rfl
  · rw [if_neg hc] at hp
    cases hp

theorem gapSurvivalRaw_eq_one (sorted : List Msg) : gapSurvivalRaw sorted = 1 := by
  have hfilter : ((gapsOf sorted).filter fun g => g.survived) = gapsOf sorted :=
    List.filter_eq_self.mpr fun g hg => gapsOf_survived sorted g hg
  show (if 0 < (gapsOf sorted).length then
      ((((gapsOf sorted).filter fun g => g.survived).length : ℚ) / ((gapsOf sorted).length : ℚ))
    else 1) = 1
  rw [hfilter]
  by_cases hlen : 0 < (gapsOf sorted).length
  · rw [if_pos hlen]
    exact div_self (Nat.cast_ne_zero.mpr hlen.ne')
  · rw [if_neg hlen]

theorem prefixed_ne_empty (s : String) : ("0x" ++ s) ≠ "" := by
  intro h
  have hlen := congrArg String.length h
  rw [String.length_append] at hlen
  have h2 : ("0x" : String).length = 2 := rfl
  have h0 : ("" : String).length = 0 := rfl
  rw [h2, h0] at hlen
  omega

theorem pairwise_ne_symm {x y : Msg}
    (h : x.time.timeMs ≠ y.time.timeMs) : y.time.timeMs ≠ x.time.timeMs := h.symm

theorem sortByTime_eq_of_perm (l1 l2 : List Msg) (hp : l1.Perm l2)
    (hd : l1.Pairwise fun a b => a.time.timeMs ≠ b.time.timeMs) :
    sortByTime l1 = sortByTime l2 := by
  have hd1 : (sortByTime l1).Pairwise (fun a b => a.time.timeMs ≠ b.time.timeMs) :=
    ((sortByTime_perm l1).pairwise_iff pairwise_ne_symm).mpr hd
  have hd2 : (sortByTime l2).Pairwise (fun a b => a.time.timeMs ≠ b.time.timeMs) :=
    ((sortByTime_perm l2).pairwise_iff pairwise_ne_symm).mpr
      ((hp.pairwise_iff pairwise_ne_symm).mp hd)
  have hs1 : List.Sorted msgLT (sortByTime l1) :=
    (List.Pairwise.and (sortByTime_sorted l1) hd1).imp fun hab =>
      lt_of_le_of_ne hab.1 hab.2
  have hs2 : List.Sorted msgLT (sortByTime l2) :=
    (List.Pairwise.and (sortByTime_sorted l2) hd2).imp fun hab =>
      lt_of_le_of_ne hab.1 hab.2
  exact List.eq_of_perm_of_sorted
    ((sortByTime_perm l1).trans (hp.trans (sortByTime_perm l2).symm)) hs1 hs2

/-- C1: createExchangeHash is a pure function of its arguments, so two runs
on the same transcript agree byte for byte, and it is invariant under
swapping the two participants: the pair is sorted before any hashing, so
the commitment, rhythmSignature, exchangeHash, and every other field of
the report are identical with the arguments swapped. -/
theorem createExchangeHash_pair_order_invariant (h : String → String)
    (agent1 agent2 : String) (rhythm : RhythmMetrics) (firstMsg lastMsg : Msg) :
    createExchangeHash h agent2 agent1 rhythm firstMsg lastMsg =
      createExchangeHash h agent1 agent2 rhythm firstMsg lastMsg := by
  unfold createExchangeHash
  rw [sortedAgents_comm]

/-- C8: on any transcript of at least 2 records the returned gapSurvival is
exactly 1: every interval longer than 120 minutes is recorded with
survived set to true, so the survivor ratio is gapsCount / gapsCount, and
the ratio defaults to 1 when no gap was found.  The gapsCount field counts
exactly the detected gaps. -/
theorem computeRhythm_gapSurvival_one (l : List Msg) (h2 : 2 ≤ l.length) :
    (computeRhythm l).gapSurvival = 1 ∧
      (computeRhythm l).gapsCount = some (gapsOf (sortByTime l)).length := by
  have hc : ¬ l.length < 2 := by omega
  unfold computeRhythm
  rw [if_neg hc]
  refine ⟨?_, rfl⟩
  show (jsRound (gapSurvivalRaw (sortByTime l) * 100) : ℚ) / 100 = 1
  rw [gapSurvivalRaw_eq_one]
  norm_num [jsRound]

/-- Witness for C8 at a concrete 2-message transcript 90 minutes apart
(no gap, so gapsCount is 0 and the ratio takes its default). -/
theorem computeRhythm_gapSurvival_one_witness :
    (computeRhythm [msgAxiom0, msgVeritas90]).gapSurvival = 1 ∧
      (computeRhythm [msgAxiom0, msgVeritas90]).gapsCount =
        some (gapsOf (sortByTime [msgAxiom0, msgVeritas90])).length :=
  computeRhythm_gapSurvival_one [msgAxiom0, msgVeritas90] (by decide)

/-- C10 counterexample: computeRhythm does mutate its argument.  The sort
at exchange-hash.mjs line 84 runs in place, so a caller passing the two
records out of timestamp order finds them reordered after the call. -/
theorem computeRhythmPost_mutates :
    computeRhythmPost [msgAxiom60, msgAxiom0] ≠ [msgAxiom60, msgAxiom0] := by
  have : computeRhythmPost [msgAxiom60, msgAxiom0] = [msgAxiom0, msgAxiom60] := by
    norm_num [computeRhythmPost, sortByTime, List.insertionSort, List.orderedInsert,
      msgLE, msgAxiom0, msgAxiom60]
  rw [this]
  simp [msgAxiom0, msgAxiom60]

/-- C10 amended: the call leaves the argument a permutation of itself (no
record is created, dropped, or edited), but in timestamp-sorted order; an
argument of fewer than 2 records is returned untouched, and such a list
is vacuously sorted as well. -/
theorem computeRhythmPost_perm_and_sorted (l : List Msg) :
    (computeRhythmPost l).Perm l ∧ List.Sorted msgLE (computeRhythmPost l) := by
  unfold computeRhythmPost
  by_cases hc : l.length < 2
  · rw [if_pos hc]
    refine ⟨List.Perm.refl l, ?_⟩
    cases l with
    | nil => exact List.sorted_nil
    | cons x xs =>
      cases xs with
      | nil => exact List.sorted_singleton x
      | cons y ys => exact absurd hc (by simp)
  · rw [if_neg hc]
    exact ⟨sortByTime_perm l, sortByTime_sorted l⟩

/-- C6 counterexample: computeRhythm is not invariant under permutations
when timestamps tie.  The sort is stable, so with msgAxiom0 and
msgVeritas0 sharing a timestamp the two input orders sort differently; in
one order the 60-minute step to msgAxiom60 follows a sender change and is
counted as a response latency, in the other it follows the same sender
and is not, so the metrics differ (avgLatency 30 versus 0). -/
theorem computeRhythm_perm_counterexample :
    List.Perm [msgAxiom0, msgVeritas0, msgAxiom60] [msgVeritas0, msgAxiom0, msgAxiom60] ∧
      computeRhythm [msgAxiom0, msgVeritas0, msgAxiom60] ≠
        computeRhythm [msgVeritas0, msgAxiom0, msgAxiom60] := by
  constructor
  · decide
  · intro h
    have havg := congrArg RhythmMetrics.avgLatency h
    norm_num [computeRhythm, sortByTime, List.insertionSort, List.orderedInsert, msgLE,
      avgLatencyRaw, latenciesOf, msgPairs, diffMins, jsRound, List.filterMap_cons,
      msgAxiom0, msgVeritas0, msgAxiom60,
      (by decide : ("veritas" : String) ≠ "axiom"),
      (by decide : ("axiom" : String) ≠ "veritas")] at havg

/-- C6 amended: for inputs whose timestamps are pairwise distinct, any
permutation of the record list produces identical RhythmMetrics: the
stable sort then has a unique sorted order, and every derived field is a
function of the sorted list and of the input length. -/
theorem computeRhythm_perm_invariant (l1 l2 : List Msg) (hp : l1.Perm l2)
    (hd : l1.Pairwise fun a b => a.time.timeMs ≠ b.time.timeMs) :
    computeRhythm l1 = computeRhythm l2 := by
  have hlen := hp.length_eq
  have hsort := sortByTime_eq_of_perm l1 l2 hp hd
  unfold computeRhythm
  rw [hlen, hsort]

/-- Witness for C6 at a concrete permuted pair of 3-message transcripts
with pairwise distinct timestamps. -/
theorem computeRhythm_perm_invariant_witness :
    computeRhythm [msgAxiom60, msgAxiom0, msgVeritas90] =
      computeRhythm [msgAxiom0, msgVeritas90, msgAxiom60] :=
  computeRhythm_perm_invariant [msgAxiom60, msgAxiom0, msgVeritas90]
    [msgAxiom0, msgVeritas90, msgAxiom60] (by decide) (by decide)

/-- C5 counterexample: the early-return branch of computeRhythm sets
gapSurvival to 0, not to the claimed 1.0, on both the empty and the
singleton transcript. -/
theorem computeRhythm_short_gapSurvival_zero :
    (computeRhythm []).gapSurvival ≠ 1 ∧
      (computeRhythm [msgAxiom0]).gapSurvival ≠ 1 := by
  constructor
  · simp [computeRhythm]
  · simp [computeRhythm]

/-- C5 amended: on the empty and on every singleton transcript,
computeRhythm reports messageCount equal to the input length and
avgLatency 0, but gapSurvival 0 (the short-input branch zeroes every
derived field, gap survival included). -/
theorem computeRhythm_short_input (l : List Msg) (hc : l.length < 2) :
    (computeRhythm l).messageCount = l.length ∧
      (computeRhythm l).avgLatency = 0 ∧
      (computeRhythm l).gapSurvival = 0 := by
  unfold computeRhythm
  rw [if_pos hc]
  exact ⟨rfl, rfl, rfl⟩

/-- Witness for C5 at the empty transcript. -/
theorem computeRhythm_short_input_witness :
    (computeRhythm []).messageCount = List.length ([] : List Msg) ∧
      (computeRhythm []).avgLatency = 0 ∧
      (computeRhythm []).gapSurvival = 0 :=
  computeRhythm_short_input [] (by decide)

/-- C4 counterexample: the exchange-hash pipeline does not fail on a
1-message transcript.  The only guard in main is messages.length === 0;
with a single record createExchangeHash still runs (on the record as both
first and last message) and returns non-empty hashes. -/
theorem runExchange_singleton_succeeds :
    (runExchange (fun s => s) "alice" "bob" [msgAxiom0]).isSome = true ∧
      hashesNonEmpty (runExchange (fun s => s) "alice" "bob" [msgAxiom0]) = true := by
  constructor
  · rfl
  · show hashesNonEmpty (some (createExchangeHash (fun s => s) "alice" "bob"
      (computeRhythm [msgAxiom0]) msgAxiom0 msgAxiom0)) = true
    simp only [hashesNonEmpty, createExchangeHash, Bool.and_eq_true, decide_eq_true_eq]
    exact ⟨⟨prefixed_ne_empty _, prefixed_ne_empty _⟩, prefixed_ne_empty _⟩

/-- C4 amended: the pipeline reports nothing exactly on the empty
transcript (the script prints that no messages were found and exits);
on every non-empty transcript, 1 message included, it succeeds and the
commitment, rhythmSignature and exchangeHash of the report are all
non-empty.  No InsufficientData failure exists in exchange-hash.mjs. -/
theorem runExchange_none_iff_empty (h : String → String) (agent1 agent2 : String)
    (l : List Msg) :
    (runExchange h agent1 agent2 l = none ↔ l = []) ∧
      (l ≠ [] → hashesNonEmpty (runExchange h agent1 agent2 l) = true) := by
  have hiff : runExchange h agent1 agent2 l = none ↔ l = [] := by
    constructor
    · intro hn
      unfold runExchange at hn
      split at hn
      case _ hs => exact ((hs ▸ sortByTime_perm l).nil_eq).symm
      case _ => cases hn
    · intro hl
      subst hl
      rfl
  refine ⟨hiff, fun hl => ?_⟩
  rcases hr : runExchange h agent1 agent2 l with _ | r
  · exact absurd (hiff.mp hr) hl
  · unfold runExchange at hr
    split at hr
    case _ => cases hr
    case _ m rest hs =>
      cases hr
      simp only [hashesNonEmpty, createExchangeHash, Bool.and_eq_true, decide_eq_true_eq]
      exact ⟨⟨prefixed_ne_empty _, prefixed_ne_empty _⟩, prefixed_ne_empty _⟩

/-- Witness for C4 at a concrete 2-message transcript: the non-emptiness
guard is discharged and the three hashes of the report are non-empty. -/
theorem runExchange_none_iff_empty_witness :
    hashesNonEmpty
      (runExchange (fun s => s) "axiom" "veritas" [msgAxiom0, msgVeritas90]) = true :=
  (runExchange_none_iff_empty (fun s => s) "axiom" "veritas"
    [msgAxiom0, msgVeritas90]).2 (by simp)

/-- C2: when the identity and the claim both exist, the verdict carries
the computed stake and sentiment, trusted is the conjunction of the stake
gate and the sentiment gate, and contested is exactly the positivity of
the against-stake. -/
theorem evaluateTrust_verdict_formula (s : TrustSignal) (t : Threshold)
    (hid : s.identityExists = true) (hcl : s.claimExists = true) :
    (evaluateTrust s t).stake = some s.forStake ∧
      (evaluateTrust s t).sentiment =
        some (s.forStake /
          (if s.forStake + s.againstStake = 0 then 1 else s.forStake + s.againstStake)) ∧
      (evaluateTrust s t).trusted =
        ((t.stake ≤ s.forStake : Bool) &&
          (t.sentiment ≤ s.forStake /
            (if s.forStake + s.againstStake = 0 then 1
             else s.forStake + s.againstStake) : Bool)) ∧
      (evaluateTrust s t).contested = some (0 < s.againstStake : Bool) := by
  unfold evaluateTrust
  rw [hid, hcl]
  exact ⟨rfl, rfl, rfl, rfl⟩

/-- Witness for C2, the contested scenario of the specification: with
forStake 2, againstStake 3 and the default thresholds, the sentiment is
2/5 = 0.4, the claim is contested, and the verdict is not trusted. -/
theorem evaluateTrust_verdict_formula_witness :
    (evaluateTrust ⟨true, true, 2, 3⟩ ⟨1, 4/5⟩).stake = some 2 ∧
      (evaluateTrust ⟨true, true, 2, 3⟩ ⟨1, 4/5⟩).sentiment = some (2/5) ∧
      (evaluateTrust ⟨true, true, 2, 3⟩ ⟨1, 4/5⟩).trusted = false ∧
      (evaluateTrust ⟨true, true, 2, 3⟩ ⟨1, 4/5⟩).contested = some true := by
  obtain ⟨h1, h2, h3, h4⟩ := evaluateTrust_verdict_formula ⟨true, true, 2, 3⟩ ⟨1, 4/5⟩ rfl rfl
  refine ⟨h1, ?_, ?_, ?_⟩
  · rw [h2]
    norm_num
  · rw [h3]
    norm_num
  · rw [h4]
    norm_num

/-- C3 counterexample: with forStake 0 and againstStake 0 the code takes
the or-fallback denominator 1 and returns sentiment 0/1 = 0, not the
claimed 1.0 (there is indeed no NaN and no division error, but the value
is 0). -/
theorem evaluateTrust_zero_denominator_counterexample :
    (evaluateTrust ⟨true, true, 0, 0⟩ ⟨1, 4/5⟩).sentiment = some 0 ∧
      (evaluateTrust ⟨true, true, 0, 0⟩ ⟨1, 4/5⟩).sentiment ≠ some 1 := by
  norm_num [evaluateTrust]

/-- C3 amended: whenever the denominator forStake + againstStake is
non-zero the sentiment is the exact quotient forStake over the sum, and
the all-zero input returns sentiment 0 (the fallback denominator 1
applies, so no NaN or division error occurs). -/
theorem evaluateTrust_sentiment_division (s : TrustSignal) (t : Threshold)
    (hid : s.identityExists = true) (hcl : s.claimExists = true) :
    (s.forStake + s.againstStake ≠ 0 →
      (evaluateTrust s t).sentiment =
        some (s.forStake / (s.forStake + s.againstStake))) ∧
      (s.forStake = 0 → s.againstStake = 0 →
        (evaluateTrust s t).sentiment = some 0) := by
  unfold evaluateTrust
  rw [hid, hcl]
  constructor
  · intro hne
    show some (s.forStake /
        (if s.forStake + s.againstStake = 0 then 1 else s.forStake + s.againstStake)) = _
    rw [if_neg hne]
  · intro hf ha
    show some (s.forStake /
        (if s.forStake + s.againstStake = 0 then 1 else s.forStake + s.againstStake)) = _
    rw [hf, ha]
    norm_num

/-- Witness for C3: a non-zero denominator instance and the all-zero
instance, both through the amended theorem. -/
theorem evaluateTrust_sentiment_division_witness :
    (evaluateTrust ⟨true, true, 1, 3⟩ ⟨1, 4/5⟩).sentiment = some ((1 : ℚ) / (1 + 3)) ∧
      (evaluateTrust ⟨true, true, 0, 0⟩ ⟨1, 4/5⟩).sentiment = some 0 :=
  ⟨(evaluateTrust_sentiment_division ⟨true, true, 1, 3⟩ ⟨1, 4/5⟩ rfl rfl).1 (by norm_num),
    (evaluateTrust_sentiment_division ⟨true, true, 0, 0⟩ ⟨1, 4/5⟩ rfl rfl).2 rfl rfl⟩

/-- C7 counterexample: when the identity and the claim exist but the
stake gate fails (forStake 0.05 against minimum stake 1), the verdict is
trusted false with NO reason property at all: the final return of
evaluateTrust carries no reason, so nothing in the verdict names the
failing gate. -/
theorem evaluateTrust_stake_gate_no_reason :
    (evaluateTrust ⟨true, true, 1/20, 0⟩ ⟨1, 4/5⟩).trusted = false ∧
      (evaluateTrust ⟨true, true, 1/20, 0⟩ ⟨1, 4/5⟩).reason = none := by
  norm_num [evaluateTrust]

/-- C7 amended: the reason is the string for the missing identity exactly
when identityExists is false, the string for the missing claim exactly
when the identity exists and the claim does not, any reason-bearing
verdict is untrusted, and when both gates pass the verdict carries no
reason at all (in particular none distinct from the two strings, but not
one naming the stake gate). -/
theorem evaluateTrust_reason_ladder (s : TrustSignal) (t : Threshold) :
    ((evaluateTrust s t).reason = some "no on-chain identity" ↔
        s.identityExists = false) ∧
      ((evaluateTrust s t).reason = some "no identity claim" ↔
        (s.identityExists = true ∧ s.claimExists = false)) ∧
      (∀ r : String, (evaluateTrust s t).reason = some r →
        (evaluateTrust s t).trusted = false) ∧
      (s.identityExists = true → s.claimExists = true →
        (evaluateTrust s t).reason = none) := by
  obtain ⟨hi, hc, fS, aS⟩ := s
  cases hi <;> cases hc <;>
    simp [evaluateTrust,
      (by decide : ("no on-chain identity" : String) ≠ "no identity claim"),
      (by decide : ("no identity claim" : String) ≠ "no on-chain identity")]

/-- Witness for C7: each rung of the ladder at a concrete signal. -/
theorem evaluateTrust_reason_ladder_witness :
    (evaluateTrust ⟨false, false, 0, 0⟩ ⟨1, 4/5⟩).reason = some "no on-chain identity" ∧
      (evaluateTrust ⟨true, false, 0, 0⟩ ⟨1, 4/5⟩).reason = some "no identity claim" ∧
      (evaluateTrust ⟨true, true, 5, 0⟩ ⟨1, 4/5⟩).reason = none :=
  ⟨(evaluateTrust_reason_ladder ⟨false, false, 0, 0⟩ ⟨1, 4/5⟩).1.mpr rfl,
    (evaluateTrust_reason_ladder ⟨true, false, 0, 0⟩ ⟨1, 4/5⟩).2.1.mpr ⟨rfl, rfl⟩,
    (evaluateTrust_reason_ladder ⟨true, true, 5, 0⟩ ⟨1, 4/5⟩).2.2.2 rfl rfl⟩

/-- C9 counterexample: a negative forStake is not rejected.  evaluateTrust
of a signal with forStake -1 returns an ordinary verdict (reason absent,
stake -1, sentiment (-1)/(-1) = 1 through the formula), so no InvalidSignal
error reaches the caller: the function has no error outcome at all. -/
theorem evaluateTrust_negative_stake_no_rejection :
    evaluateTrust ⟨true, true, -1, 0⟩ ⟨1, 4/5⟩ =
      ⟨false, none, some (-1), some 1, some false⟩ := by
  norm_num [evaluateTrust]

/-- C9 amended: evaluateTrust validates nothing: with the identity and
claim present it always proceeds through the ladder and returns the
computed verdict, with no hypothesis on the sign of either stake. -/
theorem evaluateTrust_no_input_validation (s : TrustSignal) (t : Threshold)
    (hid : s.identityExists = true) (hcl : s.claimExists = true) :
    (evaluateTrust s t).reason = none ∧
      (evaluateTrust s t).stake = some s.forStake := by
  unfold evaluateTrust
  rw [hid, hcl]
  exact ⟨rfl, rfl⟩

/-- Witness for C9 at a signal with both stakes negative. -/
theorem evaluateTrust_no_input_validation_witness :
    (evaluateTrust ⟨true, true, -5, -3⟩ ⟨1, 4/5⟩).reason = none ∧
      (evaluateTrust ⟨true, true, -5, -3⟩ ⟨1, 4/5⟩).stake = some (-5) :=
  evaluateTrust_no_input_validation ⟨true, true, -5, -3⟩ ⟨1, 4/5⟩ rfl rfl
